import Mathlib

/-!
Shallow embedding of the DRAGON-GHOST-API Flask application
(`src/ghost_api.py`) and of the serialized dispatch layer it calls into.

The HTTP layer in `ghost_api.py` is embedded as pure Lean functions:
each Flask handler becomes a function from an environment (the external
collaborators: `APIValidator`, `Config`, the account pool dispatch and
the clock) and the mutable `api_stats` counters to a response, the new
counters, and the log lines emitted.  Python exceptions raised by the
external `send_single_ghost_attack` call are modelled by an explicit
`DispatchResult.exn` constructor; `request.get_json()` returning `None`
for a missing/null JSON body is modelled by an `Option` request body
(the code's own `if not data` check shows this is the behaviour the
source relies on).
-/

/-- The mutable counters of `api_stats` in `ghost_api.py` (lines 12-18);
the constant `start_time` / `main_account` entries live in `Env`. -/
structure Stats where
  total_requests : Nat
  successful_ghost_attacks : Nat
  failed_attacks : Nat
  deriving DecidableEq

/-- A JSON value as it appears in the response bodies built by
`ghost_api.py`: strings, integers, booleans, a flat string-valued object
(the `test_data` block) and the embedded statistics block. -/
inductive JVal where
  | str (s : String)
  | int (n : Int)
  | bool (b : Bool)
  | obj (fields : List (String × String))
  | statsObj (st : Stats)
  deriving DecidableEq

/-- An HTTP response: the JSON body as an ordered key/value list (the
order in which `jsonify` receives the fields) and the HTTP status code. -/
structure Response where
  body : List (String × JVal)
  code : Nat
  deriving DecidableEq

/-- Result of one handler: the response, the updated `api_stats`
counters, and the `logger.error` lines emitted while handling. -/
structure HandlerResult where
  resp : Response
  stats : Stats
  logs : List String
  deriving DecidableEq

/-- The `GhostAccount` object returned by
`account_pool.get_main_account()`, as read by `account_status` and
`system_health` (fields `account_id`, `is_connected`, `last_activity`,
`connection_attempts`). -/
structure GhostAccount where
  account_id : String
  is_connected : Bool
  last_activity_iso : String
  connection_attempts : Nat
  deriving DecidableEq

/-- Outcome of `account_pool.send_single_ghost_attack(team_code,
ghost_name)`: either a normal `(success, message)` return or a raised
exception carrying `str(e)`. -/
inductive DispatchResult where
  | ok (success : Bool) (message : String)
  | exn (err : String)
  deriving DecidableEq

/-- The external collaborators of `ghost_api.py`, fixed for the duration
of one request: `APIValidator.check_api_status`,
`APIValidator.validate_team_code`, the account pool dispatch, `Config`
(account id, validity window) and the clock (`datetime.now()` rendered
as the iso timestamp / elapsed seconds the handlers consume). -/
structure Env where
  check_api_status : Bool
  validate_team_code : String → Bool
  dispatch : String → String → DispatchResult
  main_account_id : String
  account : Option GhostAccount
  now_iso : String
  uptime_str : String
  start_time_iso : String
  api_duration_secs : Int
  elapsed_secs : Int

/-- Lookup in a response body (association-list view of the JSON
object `jsonify` produced). -/
def jlookup (k : String) : List (String × JVal) → Option JVal
  | [] => none
  | (k', v) :: rest => if k = k' then some v else jlookup k rest

/-- The key list of a response body: the shape of the JSON object. -/
def respKeys (r : Response) : List String :=
  r.body.map Prod.fst

/-- The condition `account and account.is_connected` of
`system_health` (line 132). -/
def accountConnected (env : Env) : Bool :=
  match env.account with
  | some a => a.is_connected
  | none => false

/-- Embedding of `before_request` (lines 20-28): increment
`total_requests`, then gate on `APIValidator.check_api_status()`;
returning a response short-circuits the endpoint handler. -/
def before_request (env : Env) (st : Stats) : Option Response × Stats :=
  let st' := { st with total_requests := st.total_requests + 1 }
  if env.check_api_status then
    (none, st')
  else
    (some ⟨[("status", JVal.str "error"),
            ("message", JVal.str "API has expired. Please contact administrator.")], 403⟩, st')

/-- Embedding of the `home` handler (lines 30-41). -/
def home (env : Env) (st : Stats) : HandlerResult :=
  ⟨⟨[("status", JVal.str "success"),
     ("message", JVal.str "DRAGON Single Ghost API is running"),
     ("version", JVal.str "2.0"),
     ("author", JVal.str "DRAGON"),
     ("mode", JVal.str "Single Account Mode"),
     ("main_account", JVal.str env.main_account_id),
     ("uptime", JVal.str env.uptime_str),
     ("stats", JVal.statsObj st)], 200⟩, st, []⟩

/-- Embedding of `ghost_attack` (lines 43-95).  `data` is the value of
`request.get_json()` (`none` models Python `None`); Python falsiness of
`data` covers both `None` and the empty object, and falsiness of
`team_code` covers both a missing key and the empty string.  The
`except` branch (dispatch raised) logs and counts a failed attack. -/
def ghost_attack (env : Env) (data : Option (List (String × String))) (st : Stats) :
    HandlerResult :=
  match data with
  | none =>
    ⟨⟨[("status", JVal.str "error"),
       ("message", JVal.str "No JSON data provided")], 400⟩, st, []⟩
  | some d =>
    if d = [] then
      ⟨⟨[("status", JVal.str "error"),
         ("message", JVal.str "No JSON data provided")], 400⟩, st, []⟩
    else
      let ghost_name := (d.lookup "ghost_name").getD "DRAGON Ghost"
      match d.lookup "team_code" with
      | none =>
        ⟨⟨[("status", JVal.str "error"),
           ("message", JVal.str "Team code is required")], 400⟩, st, []⟩
      | some team_code =>
        if team_code = "" then
          ⟨⟨[("status", JVal.str "error"),
             ("message", JVal.str "Team code is required")], 400⟩, st, []⟩
        else if env.validate_team_code team_code then
          match env.dispatch team_code ghost_name with
          | DispatchResult.ok true message =>
            ⟨⟨[("status", JVal.str "success"),
               ("message", JVal.str message),
               ("team_code", JVal.str team_code),
               ("ghost_name", JVal.str ghost_name),
               ("account_used", JVal.str env.main_account_id),
               ("timestamp", JVal.str env.now_iso)], 200⟩,
             { st with successful_ghost_attacks := st.successful_ghost_attacks + 1 }, []⟩
          | DispatchResult.ok false message =>
            ⟨⟨[("status", JVal.str "error"),
               ("message", JVal.str message)], 500⟩,
             { st with failed_attacks := st.failed_attacks + 1 }, []⟩
          | DispatchResult.exn e =>
            ⟨⟨[("status", JVal.str "error"),
               ("message", JVal.str ("Internal server error: " ++ e))], 500⟩,
             { st with failed_attacks := st.failed_attacks + 1 },
             ["Ghost attack error: " ++ e]⟩
        else
          ⟨⟨[("status", JVal.str "error"),
             ("message", JVal.str "Invalid team code format")], 400⟩, st, []⟩

/-- Embedding of `account_status` (lines 97-123); note the error body is
returned through the same `jsonify(status_info)` with code 200. -/
def account_status (env : Env) (st : Stats) : HandlerResult :=
  match env.account with
  | some a =>
    ⟨⟨[("status", JVal.str "success"),
       ("account_id", JVal.str a.account_id),
       ("connected", JVal.bool a.is_connected),
       ("last_activity", JVal.str a.last_activity_iso),
       ("connection_attempts", JVal.int a.connection_attempts)], 200⟩, st, []⟩
  | none =>
    ⟨⟨[("status", JVal.str "error"),
       ("message", JVal.str "Main account not available")], 200⟩, st, []⟩

/-- Embedding of `system_health` (lines 125-151).  `days_remaining`
is `(Config.API_DURATION - elapsed).days`, i.e. the floor division of
the remaining seconds by 86400 (Python `timedelta.days` floors), then
clamped with `max(0, ...)`. -/
def system_health (env : Env) (st : Stats) : HandlerResult :=
  let days_remaining : Int := Int.fdiv (env.api_duration_secs - env.elapsed_secs) 86400
  ⟨⟨[("status", JVal.str "success"),
     ("api_running", JVal.bool true),
     ("api_name", JVal.str "DRAGON Single Ghost API"),
     ("mode", JVal.str "Single Account"),
     ("main_account", JVal.str env.main_account_id),
     ("account_status", JVal.str (if accountConnected env then "Connected" else "Disconnected")),
     ("start_time", JVal.str env.start_time_iso),
     ("days_remaining", JVal.int (max 0 days_remaining)),
     ("statistics", JVal.statsObj st)], 200⟩, st, []⟩

/-- The `str(e)` text of the `AttributeError` raised by `data.get(...)`
when `request.get_json()` returned `None` in `test_ghost` (quote marks
of the Python rendering omitted). -/
def noneGetErrorMsg : String := "NoneType object has no attribute get"

/-- Embedding of `test_ghost` (lines 153-177).  A missing/null JSON body
makes `data.get` raise `AttributeError` before the dispatch is reached;
the `except` branch turns any exception into a 500 `Test failed:`
response without touching the attack counters. -/
def test_ghost (env : Env) (data : Option (List (String × String))) (st : Stats) :
    HandlerResult :=
  match data with
  | none =>
    ⟨⟨[("status", JVal.str "error"),
       ("message", JVal.str ("Test failed: " ++ noneGetErrorMsg))], 500⟩, st, []⟩
  | some d =>
    let team_code := (d.lookup "team_code").getD "12345678"
    let ghost_name := (d.lookup "ghost_name").getD "TEST GHOST"
    match env.dispatch team_code ghost_name with
    | DispatchResult.ok success message =>
      ⟨⟨[("status", JVal.str (if success then "success" else "error")),
         ("message", JVal.str message),
         ("test_data", JVal.obj [("team_code", team_code),
                                 ("ghost_name", ghost_name),
                                 ("account_used", env.main_account_id)])], 200⟩, st, []⟩
    | DispatchResult.exn e =>
      ⟨⟨[("status", JVal.str "error"),
         ("message", JVal.str ("Test failed: " ++ e))], 500⟩, st, []⟩

/-- The routes registered on the Flask app. -/
inductive Route where
  | homeR | attackR | accountStatusR | healthR | testR
  deriving DecidableEq

/-- One inbound HTTP request: the route hit and the JSON body
(`none` models a missing or `null` body). -/
structure HttpRequest where
  route : Route
  data : Option (List (String × String))
  deriving DecidableEq

/-- Route dispatch of the Flask app: which handler runs for a request
once `before_request` let it through. -/
def dispatch_route (env : Env) (r : HttpRequest) (st : Stats) : HandlerResult :=
  match r.route with
  | Route.homeR => home env st
  | Route.attackR => ghost_attack env r.data st
  | Route.accountStatusR => account_status env st
  | Route.healthR => system_health env st
  | Route.testR => test_ghost env r.data st

/-- Full request pipeline: `before_request` runs first (incrementing
`total_requests` and evaluating the API gate); only if it returned no
response does the endpoint handler run. -/
def handle_request (env : Env) (r : HttpRequest) (st : Stats) : HandlerResult :=
  match before_request env st with
  | (some resp, st') => ⟨resp, st', []⟩
  | (none, st') => dispatch_route env r st'

/-- The counters at process start (`api_stats` initialisation). -/
def stats0 : Stats := ⟨0, 0, 0⟩

/-- Run a whole sequence of requests through the app, threading the
`api_stats` counters. -/
def run_requests (env : Env) (rs : List HttpRequest) (st : Stats) : Stats :=
  match rs with
  | [] => st
  | r :: rest => run_requests env rest (handle_request env r st).stats

/-- A concrete environment used to instantiate the theorems: gate open,
team codes of length 8 accepted, dispatch succeeds. -/
def sampleEnv : Env :=
  { check_api_status := true
    validate_team_code := fun tc => tc.length == 8
    dispatch := fun _ _ => DispatchResult.ok true "Ghost sent successfully"
    main_account_id := "101202303"
    account := some ⟨"101202303", true, "2026-01-01T00:00:00", 0⟩
    now_iso := "2026-01-02T00:00:00"
    uptime_str := "1 day, 0:00:00"
    start_time_iso := "2026-01-01T00:00:00"
    api_duration_secs := 2592000
    elapsed_secs := 86400 }

/-- `sampleEnv` with a dispatch that reports failure. -/
def failEnv : Env :=
  { sampleEnv with dispatch := fun _ _ => DispatchResult.ok false "Failed to send ghost" }

/-- `sampleEnv` with a dispatch that raises. -/
def exnEnv : Env :=
  { sampleEnv with dispatch := fun _ _ => DispatchResult.exn "boom" }

/-- `sampleEnv` with the API gate closed. -/
def gateOffEnv : Env :=
  { sampleEnv with check_api_status := false }

/-! ### The serialized dispatch layer

`SingleAccountPool.send_single_ghost_attack` lives in
`account_handler.py`, which is not part of the sources here; only its
call sites in `ghost_api.py` are.  Its locking discipline is therefore
modelled from the spec (sections 4.2 and 5): each concurrent
`SendSingleGhostAttack` call acquires an exclusive lock scoped to the
account session, performs `SendAction` while holding it, and releases
it; waiters block in FIFO order and are never dropped. -/

/-- Modelled from the spec: the phase of one `SendSingleGhostAttack`
call (`account_handler.py` is missing from the sources).  `idle`:
not yet arrived; `queued`: blocked waiting for the exclusive lock;
`inSend`: holding the lock with `SendAction` in flight; `done`:
lock released, call returned. -/
inductive TPC where
  | idle | queued | inSend | done
  deriving DecidableEq

/-- Modelled from the spec: the shared state of the dispatch
coordinator under concurrent `SendSingleGhostAttack` calls.  Threads
are named by naturals; `owner` is the lock holder, `queue` the FIFO
wait queue, `history` the order in which calls entered `SendAction`,
`arrivals` the order in which calls arrived. -/
structure CState where
  pc : Nat → TPC
  owner : Option Nat
  queue : List Nat
  history : List Nat
  arrivals : List Nat

/-- Modelled from the spec: the interleaving steps of concurrent
`SendSingleGhostAttack` calls.  A call arrives and blocks at the tail
of the wait queue; only the head of the queue may take the free lock
and start `SendAction`; only the holder releases. -/
inductive LockStep : CState → CState → Prop where
  | arrive (s : CState) (t : Nat) :
      s.pc t = TPC.idle →
      LockStep s ⟨fun u => if u = t then TPC.queued else s.pc u,
                  s.owner, s.queue ++ [t], s.history, s.arrivals ++ [t]⟩
  | acquire (s : CState) (t : Nat) (rest : List Nat) :
      s.pc t = TPC.queued → s.owner = none → s.queue = t :: rest →
      LockStep s ⟨fun u => if u = t then TPC.inSend else s.pc u,
                  some t, rest, s.history ++ [t], s.arrivals⟩
  | release (s : CState) (t : Nat) :
      s.pc t = TPC.inSend → s.owner = some t →
      LockStep s ⟨fun u => if u = t then TPC.done else s.pc u,
                  none, s.queue, s.history, s.arrivals⟩

/-- Modelled from the spec: the initial dispatch state, before any
`SendSingleGhostAttack` call arrives. -/
def initCState : CState := ⟨fun _ => TPC.idle, none, [], [], []⟩

/-- The states the dispatch coordinator can reach from the initial
state by interleaved `SendSingleGhostAttack` steps. -/
inductive LockReachable : CState → Prop where
  | init : LockReachable initCState
  | step {s s' : CState} : LockReachable s → LockStep s s' → LockReachable s'

/-- The inductive invariant of the dispatch coordinator: the lock owner
is exactly the thread whose `SendAction` is in flight; served calls
followed by the wait queue reproduce the arrival order (first come,
first served, nothing dropped); queued threads are marked `queued`;
the wait queue has no duplicates. -/
def LockInv (s : CState) : Prop :=
  (∀ t, s.owner = some t ↔ s.pc t = TPC.inSend) ∧
  s.history ++ s.queue = s.arrivals ∧
  (∀ t, t ∈ s.queue → s.pc t = TPC.queued) ∧
  s.queue.Nodup

/-- The state after one call (thread 0) has arrived. -/
def cstateArrived : CState :=
  ⟨fun u => if u = 0 then TPC.queued else TPC.idle, none, [0], [], [0]⟩

/-- The state after thread 0 arrived and took the lock: its
`SendAction` is in flight. -/
def cstateInSend : CState :=
  ⟨fun u => if u = 0 then TPC.inSend else cstateArrived.pc u, some 0, [], [0], [0]⟩

/-! ### Theorems -/

theorem lockInv_init : LockInv initCState := by
  refine ⟨?_, rfl, ?_, List.nodup_nil⟩
  · intro t
    constructor
    · intro h; simp [initCState] at h
    · intro h; simp [initCState] at h
  · intro t h; simp [initCState] at h

theorem lockInv_step {s s' : CState} (h : LockInv s) (hs : LockStep s s') : LockInv s' := by
  obtain ⟨hown, hq, hpcq, hnd⟩ := h
  cases hs with
  | arrive t hidle =>
      have htq : t ∉ s.queue := by
        intro hmem
        have hqd := hpcq t hmem
        rw [hidle] at hqd
        exact absurd hqd (by simp)
      refine ⟨?_, ?_, ?_, ?_⟩
      · intro u
        by_cases hu : u = t
        · subst hu
          simp only [if_pos rfl]
          constructor
          · intro ho
            have := (hown u).mp ho
            rw [hidle] at this
            exact absurd this (by simp)
          · intro hc; exact absurd hc (by simp)
        · simpa [hu] using hown u
      · simp only []
        rw [← List.append_assoc, hq]
      · intro u hu
        rcases List.mem_append.mp hu with hin | hsing
        · have hut : u ≠ t := fun he => htq (he ▸ hin)
          simpa [hut] using hpcq u hin
        · have : u = t := by simpa using hsing
          simp [this]
      · exact List.Nodup.append hnd (List.nodup_singleton t) (by
          intro a ha hb
          have : a = t := by simpa using hb
          exact htq (this ▸ ha))
  | acquire t rest hpct hono hqe =>
      have hndq : (t :: rest).Nodup := hqe ▸ hnd
      have htr : t ∉ rest := (List.nodup_cons.mp hndq).1
      refine ⟨?_, ?_, ?_, (List.nodup_cons.mp hndq).2⟩
      · intro u
        by_cases hu : u = t
        · subst hu; simp
        · simp only [if_neg hu]
          constructor
          · intro he
            exact absurd (Option.some.inj he) (fun h2 => hu h2.symm)
          · intro hc
            have := (hown u).mpr hc
            rw [hono] at this
            exact absurd this (by simp)
      · simp only []
        rw [List.append_assoc]
        simpa [hqe] using hq
      · intro u hu
        have hmem : u ∈ s.queue := by rw [hqe]; exact List.mem_cons_of_mem t hu
        have hut : u ≠ t := fun he => htr (he ▸ hu)
        simpa [hut] using hpcq u hmem
  | release t hpct howner =>
      refine ⟨?_, hq, ?_, hnd⟩
      · intro u
        constructor
        · intro h; exact absurd h (by simp)
        · intro hc
          by_cases hu : u = t
          · simp [hu] at hc
          · simp [hu] at hc
            have := (hown u).mpr hc
            rw [howner] at this
            exact absurd (Option.some.inj this) (fun h2 => hu h2.symm)
      · intro u hu
        have hut : u ≠ t := by
          intro he
          have := hpcq u hu
          rw [he, hpct] at this
          exact absurd this (by simp)
        simpa [hut] using hpcq u hu

theorem lockReachable_inv {s : CState} (h : LockReachable s) : LockInv s := by
  induction h with
  | init => exact lockInv_init
  | step _ hs ih => exact lockInv_step ih hs

/-- C1: under any interleaving of concurrent `SendSingleGhostAttack`
calls, at most one call has the external `SendAction` in flight at any
instant, and the served order followed by the still-waiting queue is
exactly the arrival order: waiters block in first-come-first-serve
order and none is dropped. -/
theorem send_single_ghost_attack_mutex_fifo (s : CState) (h : LockReachable s) :
    (∀ t1 t2, s.pc t1 = TPC.inSend → s.pc t2 = TPC.inSend → t1 = t2) ∧
    s.history ++ s.queue = s.arrivals := by
  obtain ⟨hown, hq, _, _⟩ := lockReachable_inv h
  refine ⟨?_, hq⟩
  intro t1 t2 h1 h2
  have e1 := (hown t1).mpr h1
  have e2 := (hown t2).mpr h2
  rw [e1] at e2
  exact Option.some.inj e2

/-- Witness for C1 at the concrete reachable state where thread 0 has
arrived, taken the lock and is inside `SendAction`. -/
theorem send_single_ghost_attack_mutex_fifo_witness :
    (∀ t1 t2, cstateInSend.pc t1 = TPC.inSend → cstateInSend.pc t2 = TPC.inSend → t1 = t2) ∧
    cstateInSend.history ++ cstateInSend.queue = cstateInSend.arrivals :=
  send_single_ghost_attack_mutex_fifo cstateInSend
    (LockReachable.step
      (LockReachable.step LockReachable.init (LockStep.arrive initCState 0 rfl))
      (LockStep.acquire cstateArrived 0 [] rfl rfl rfl))

/-- C6: the `before_request` gate runs on every inbound request; when
`APIValidator.check_api_status()` is false the response is the 403
error body and the endpoint handler never runs — the result is the
same for every route and body, and only `total_requests` changes. -/
theorem api_gate_blocks_handler (env : Env) (r : HttpRequest) (st : Stats)
    (hgate : env.check_api_status = false) :
    handle_request env r st =
      ⟨⟨[("status", JVal.str "error"),
         ("message", JVal.str "API has expired. Please contact administrator.")], 403⟩,
       { st with total_requests := st.total_requests + 1 }, []⟩ := by
  simp [handle_request, before_request, hgate]

/-- Witness for C6 on a concrete request with the gate closed. -/
theorem api_gate_blocks_handler_witness :
    handle_request gateOffEnv ⟨Route.homeR, none⟩ stats0 =
      ⟨⟨[("status", JVal.str "error"),
         ("message", JVal.str "API has expired. Please contact administrator.")], 403⟩,
       ⟨1, 0, 0⟩, []⟩ :=
  api_gate_blocks_handler gateOffEnv ⟨Route.homeR, none⟩ stats0 rfl

/-- C4: a POST to the attack endpoint whose JSON body lacks `team_code`
gets a 400 validation failure; `total_requests` increments by exactly 1
and neither attack counter changes. -/
theorem ghost_attack_missing_team_code (env : Env) (d : List (String × String)) (st : Stats)
    (hgate : env.check_api_status = true)
    (hmiss : d.lookup "team_code" = none) :
    (handle_request env ⟨Route.attackR, some d⟩ st).resp.code = 400 ∧
    (handle_request env ⟨Route.attackR, some d⟩ st).stats.total_requests =
      st.total_requests + 1 ∧
    (handle_request env ⟨Route.attackR, some d⟩ st).stats.successful_ghost_attacks =
      st.successful_ghost_attacks ∧
    (handle_request env ⟨Route.attackR, some d⟩ st).stats.failed_attacks =
      st.failed_attacks := by
  cases d with
  | nil => simp [handle_request, before_request, dispatch_route, ghost_attack, hgate]
  | cons p l =>
      simp [handle_request, before_request, dispatch_route, ghost_attack, hgate, hmiss]

/-- Witness for C4 on a concrete body that has no `team_code` key. -/
theorem ghost_attack_missing_team_code_witness :
    (handle_request sampleEnv ⟨Route.attackR, some [("ghost_name", "X")]⟩ stats0).resp.code =
      400 ∧
    (handle_request sampleEnv ⟨Route.attackR, some [("ghost_name", "X")]⟩ stats0).stats.total_requests =
      stats0.total_requests + 1 ∧
    (handle_request sampleEnv ⟨Route.attackR, some [("ghost_name", "X")]⟩ stats0).stats.successful_ghost_attacks =
      stats0.successful_ghost_attacks ∧
    (handle_request sampleEnv ⟨Route.attackR, some [("ghost_name", "X")]⟩ stats0).stats.failed_attacks =
      stats0.failed_attacks :=
  ghost_attack_missing_team_code sampleEnv [("ghost_name", "X")] stats0 rfl rfl

/-- C5: a POST to the attack endpoint with team code `12345678` and no
`ghost_name` field is dispatched with the default label `DRAGON Ghost`
(the response reproduces the dispatch result obtained at that label),
and the success response's `account_used` field is the configured
account id. -/
theorem ghost_attack_default_label (env : Env) (d : List (String × String)) (st : Stats)
    (msg : String)
    (hgate : env.check_api_status = true)
    (htc : d.lookup "team_code" = some "12345678")
    (hng : d.lookup "ghost_name" = none)
    (hval : env.validate_team_code "12345678" = true)
    (hdisp : env.dispatch "12345678" "DRAGON Ghost" = DispatchResult.ok true msg) :
    (handle_request env ⟨Route.attackR, some d⟩ st).resp =
      ⟨[("status", JVal.str "success"),
        ("message", JVal.str msg),
        ("team_code", JVal.str "12345678"),
        ("ghost_name", JVal.str "DRAGON Ghost"),
        ("account_used", JVal.str env.main_account_id),
        ("timestamp", JVal.str env.now_iso)], 200⟩ := by
  cases d with
  | nil => simp at htc
  | cons p l =>
      simp [handle_request, before_request, dispatch_route, ghost_attack,
            hgate, htc, hng, hval, hdisp]

/-- Witness for C5 on a concrete body carrying only the team code. -/
theorem ghost_attack_default_label_witness :
    (handle_request sampleEnv ⟨Route.attackR, some [("team_code", "12345678")]⟩ stats0).resp =
      ⟨[("status", JVal.str "success"),
        ("message", JVal.str "Ghost sent successfully"),
        ("team_code", JVal.str "12345678"),
        ("ghost_name", JVal.str "DRAGON Ghost"),
        ("account_used", JVal.str "101202303"),
        ("timestamp", JVal.str "2026-01-02T00:00:00")], 200⟩ :=
  ghost_attack_default_label sampleEnv [("team_code", "12345678")] stats0
    "Ghost sent successfully" rfl rfl rfl rfl rfl

/-- C3: an exception raised inside the attack handler (here: by the
dispatch call) is caught at the request boundary, logged as
`Ghost attack error: ...`, counted as exactly one more failed attack,
and answered with the generic 500 error body; the handler still
returns a structured result, so no fault escapes it. -/
theorem ghost_attack_internal_error (env : Env) (d : List (String × String)) (st : Stats)
    (tc e : String)
    (hgate : env.check_api_status = true)
    (htc : d.lookup "team_code" = some tc)
    (hne : ¬ tc = "")
    (hval : env.validate_team_code tc = true)
    (hexn : env.dispatch tc ((d.lookup "ghost_name").getD "DRAGON Ghost") =
      DispatchResult.exn e) :
    handle_request env ⟨Route.attackR, some d⟩ st =
      ⟨⟨[("status", JVal.str "error"),
         ("message", JVal.str ("Internal server error: " ++ e))], 500⟩,
       { st with total_requests := st.total_requests + 1,
                 failed_attacks := st.failed_attacks + 1 },
       ["Ghost attack error: " ++ e]⟩ := by
  cases d with
  | nil => simp at htc
  | cons p l =>
      simp [handle_request, before_request, dispatch_route, ghost_attack,
            hgate, htc, hne, hval, hexn]

/-- Witness for C3 with a dispatch that raises `boom`. -/
theorem ghost_attack_internal_error_witness :
    handle_request exnEnv ⟨Route.attackR, some [("team_code", "12345678")]⟩ stats0 =
      ⟨⟨[("status", JVal.str "error"),
         ("message", JVal.str "Internal server error: boom")], 500⟩,
       ⟨1, 0, 1⟩, ["Ghost attack error: boom"]⟩ :=
  ghost_attack_internal_error exnEnv [("team_code", "12345678")] stats0 "12345678" "boom"
    rfl rfl (by decide) rfl rfl

/-- C9: when the test-endpoint dispatch completes without raising, the
HTTP status code is 200 even if the dispatch reports failure (the body
`status` field is then `error`), and neither attack counter changes. -/
theorem test_endpoint_status_200_on_completion (env : Env) (d : List (String × String))
    (st : Stats) (success : Bool) (msg : String)
    (hgate : env.check_api_status = true)
    (hdisp : env.dispatch ((d.lookup "team_code").getD "12345678")
               ((d.lookup "ghost_name").getD "TEST GHOST") = DispatchResult.ok success msg) :
    (handle_request env ⟨Route.testR, some d⟩ st).resp.code = 200 ∧
    jlookup "status" (handle_request env ⟨Route.testR, some d⟩ st).resp.body =
      some (JVal.str (if success then "success" else "error")) ∧
    (handle_request env ⟨Route.testR, some d⟩ st).stats.successful_ghost_attacks =
      st.successful_ghost_attacks ∧
    (handle_request env ⟨Route.testR, some d⟩ st).stats.failed_attacks =
      st.failed_attacks := by
  simp [handle_request, before_request, dispatch_route, test_ghost, hgate, hdisp, jlookup]

/-- Witness for C9 with a dispatch that reports failure: the code is
still 200 and the body status is `error`. -/
theorem test_endpoint_status_200_on_completion_witness :
    (handle_request failEnv ⟨Route.testR, some [("team_code", "12345678")]⟩ stats0).resp.code =
      200 ∧
    jlookup "status"
        (handle_request failEnv ⟨Route.testR, some [("team_code", "12345678")]⟩ stats0).resp.body =
      some (JVal.str (if false then "success" else "error")) ∧
    (handle_request failEnv ⟨Route.testR, some [("team_code", "12345678")]⟩ stats0).stats.successful_ghost_attacks =
      stats0.successful_ghost_attacks ∧
    (handle_request failEnv ⟨Route.testR, some [("team_code", "12345678")]⟩ stats0).stats.failed_attacks =
      stats0.failed_attacks :=
  test_endpoint_status_200_on_completion failEnv [("team_code", "12345678")] stats0 false
    "Failed to send ghost" rfl rfl

/-- C10: a POST to the test endpoint with a missing or null JSON body
makes `data.get` raise before the dispatch can run; the `except` branch
answers 500 with a message beginning `Test failed:` (not a 400
validation error), and the counters beyond `total_requests` are
untouched.  The right-hand side does not mention `env.dispatch`, so the
dispatch is never invoked on this path. -/
theorem test_endpoint_null_body_500 (env : Env) (st : Stats)
    (hgate : env.check_api_status = true) :
    handle_request env ⟨Route.testR, none⟩ st =
      ⟨⟨[("status", JVal.str "error"),
         ("message", JVal.str ("Test failed: " ++ noneGetErrorMsg))], 500⟩,
       { st with total_requests := st.total_requests + 1 }, []⟩ := by
  simp [handle_request, before_request, dispatch_route, test_ghost, hgate]

/-- Witness for C10 on the concrete environment. -/
theorem test_endpoint_null_body_500_witness :
    handle_request sampleEnv ⟨Route.testR, none⟩ stats0 =
      ⟨⟨[("status", JVal.str "error"),
         ("message", JVal.str ("Test failed: " ++ noneGetErrorMsg))], 500⟩,
       ⟨1, 0, 0⟩, []⟩ :=
  test_endpoint_null_body_500 sampleEnv stats0 rfl

/-- C2 counterexample: the test endpoint's response does NOT have the
same shape as the attack endpoint's.  On the same successful request
the key lists differ (the test body nests everything under
`test_data` and has no top-level `team_code` / `account_used` /
`timestamp`), and when the dispatch reports failure the test endpoint
answers 200 where the attack endpoint answers 500. -/
theorem test_endpoint_shape_cex :
    respKeys (handle_request sampleEnv ⟨Route.testR, some [("team_code", "12345678")]⟩ stats0).resp ≠
      respKeys (handle_request sampleEnv ⟨Route.attackR, some [("team_code", "12345678")]⟩ stats0).resp ∧
    (handle_request failEnv ⟨Route.testR, some [("team_code", "12345678")]⟩ stats0).resp.code =
      200 ∧
    (handle_request failEnv ⟨Route.attackR, some [("team_code", "12345678")]⟩ stats0).resp.code =
      500 := by
  decide

/-- C2 amended: the test endpoint substitutes the default test values
(`12345678`, `TEST GHOST`) for omitted fields and invokes the same
dispatch, but its response has its own shape: a
`{status, message, test_data}` body answered with HTTP 200 whether the
dispatch reports success or failure (only a raised exception yields a
500). -/
theorem test_endpoint_actual_shape (env : Env) (d : List (String × String)) (st : Stats)
    (success : Bool) (msg : String)
    (hgate : env.check_api_status = true)
    (hdisp : env.dispatch ((d.lookup "team_code").getD "12345678")
               ((d.lookup "ghost_name").getD "TEST GHOST") = DispatchResult.ok success msg) :
    (handle_request env ⟨Route.testR, some d⟩ st).resp =
      ⟨[("status", JVal.str (if success then "success" else "error")),
        ("message", JVal.str msg),
        ("test_data", JVal.obj [("team_code", (d.lookup "team_code").getD "12345678"),
                                ("ghost_name", (d.lookup "ghost_name").getD "TEST GHOST"),
                                ("account_used", env.main_account_id)])], 200⟩ := by
  simp [handle_request, before_request, dispatch_route, test_ghost, hgate, hdisp]

/-- Witness for the amended C2 on an empty JSON object: both default
test values are substituted. -/
theorem test_endpoint_actual_shape_witness :
    (handle_request sampleEnv ⟨Route.testR, some []⟩ stats0).resp =
      ⟨[("status", JVal.str "success"),
        ("message", JVal.str "Ghost sent successfully"),
        ("test_data", JVal.obj [("team_code", "12345678"),
                                ("ghost_name", "TEST GHOST"),
                                ("account_used", "101202303")])], 200⟩ :=
  test_endpoint_actual_shape sampleEnv [] stats0 true "Ghost sent successfully" rfl rfl

/-- C7: the health endpoint answers 200 with `api_running = true`, an
`account_status` string that is `Connected` exactly when the session
object exists and reports connected (and `Disconnected` otherwise), the
statistics block, and a `days_remaining` value equal to the whole days
left in the configured validity window, floored at 0 and hence never
negative. -/
theorem system_health_response_fields (env : Env) (st : Stats)
    (hgate : env.check_api_status = true) :
    (handle_request env ⟨Route.healthR, none⟩ st).resp.code = 200 ∧
    jlookup "api_running" (handle_request env ⟨Route.healthR, none⟩ st).resp.body =
      some (JVal.bool true) ∧
    (jlookup "account_status" (handle_request env ⟨Route.healthR, none⟩ st).resp.body =
        some (JVal.str "Connected") ↔
      ∃ a, env.account = some a ∧ a.is_connected = true) ∧
    (jlookup "account_status" (handle_request env ⟨Route.healthR, none⟩ st).resp.body =
        some (JVal.str "Disconnected") ↔
      ¬ ∃ a, env.account = some a ∧ a.is_connected = true) ∧
    jlookup "statistics" (handle_request env ⟨Route.healthR, none⟩ st).resp.body =
      some (JVal.statsObj { st with total_requests := st.total_requests + 1 }) ∧
    (∃ v : Int, jlookup "days_remaining" (handle_request env ⟨Route.healthR, none⟩ st).resp.body =
        some (JVal.int v) ∧ 0 ≤ v ∧
        v = max 0 (Int.fdiv (env.api_duration_secs - env.elapsed_secs) 86400)) := by
  have hmain : handle_request env ⟨Route.healthR, none⟩ st =
      system_health env { st with total_requests := st.total_requests + 1 } := by
    simp [handle_request, before_request, dispatch_route, hgate]
  rw [hmain]
  unfold system_health
  refine ⟨rfl, by simp [jlookup], ?_, ?_, by simp [jlookup], ?_⟩
  · rcases hacc : env.account with _ | a
    · simp [jlookup, accountConnected, hacc]
    · cases hc : a.is_connected <;> simp [jlookup, accountConnected, hacc, hc]
  · rcases hacc : env.account with _ | a
    · simp [jlookup, accountConnected, hacc]
    · cases hc : a.is_connected <;> simp [jlookup, accountConnected, hacc, hc]
  · exact ⟨max 0 (Int.fdiv (env.api_duration_secs - env.elapsed_secs) 86400),
      by simp [jlookup], le_max_left 0 _, rfl⟩

/-- Witness for C7 on the concrete environment (connected account,
29 whole days remaining). -/
theorem system_health_response_fields_witness :
    (handle_request sampleEnv ⟨Route.healthR, none⟩ stats0).resp.code = 200 ∧
    jlookup "api_running" (handle_request sampleEnv ⟨Route.healthR, none⟩ stats0).resp.body =
      some (JVal.bool true) ∧
    (jlookup "account_status" (handle_request sampleEnv ⟨Route.healthR, none⟩ stats0).resp.body =
        some (JVal.str "Connected") ↔
      ∃ a, sampleEnv.account = some a ∧ a.is_connected = true) ∧
    (jlookup "account_status" (handle_request sampleEnv ⟨Route.healthR, none⟩ stats0).resp.body =
        some (JVal.str "Disconnected") ↔
      ¬ ∃ a, sampleEnv.account = some a ∧ a.is_connected = true) ∧
    jlookup "statistics" (handle_request sampleEnv ⟨Route.healthR, none⟩ stats0).resp.body =
      some (JVal.statsObj { stats0 with total_requests := stats0.total_requests + 1 }) ∧
    (∃ v : Int, jlookup "days_remaining" (handle_request sampleEnv ⟨Route.healthR, none⟩ stats0).resp.body =
        some (JVal.int v) ∧ 0 ≤ v ∧
        v = max 0 (Int.fdiv (sampleEnv.api_duration_secs - sampleEnv.elapsed_secs) 86400)) :=
  system_health_response_fields sampleEnv stats0 rfl

theorem dispatch_route_stats (env : Env) (r : HttpRequest) (st : Stats) :
    (dispatch_route env r st).stats.total_requests = st.total_requests ∧
    st.successful_ghost_attacks ≤ (dispatch_route env r st).stats.successful_ghost_attacks ∧
    st.failed_attacks ≤ (dispatch_route env r st).stats.failed_attacks ∧
    (dispatch_route env r st).stats.successful_ghost_attacks +
        (dispatch_route env r st).stats.failed_attacks ≤
      st.successful_ghost_attacks + st.failed_attacks + 1 := by
  unfold dispatch_route home ghost_attack account_status system_health test_ghost
  repeat' split
  all_goals simp
  all_goals repeat' split
  all_goals simp
  all_goals omega

theorem handle_request_stats_step (env : Env) (r : HttpRequest) (st : Stats) :
    (handle_request env r st).stats.total_requests = st.total_requests + 1 ∧
    st.successful_ghost_attacks ≤ (handle_request env r st).stats.successful_ghost_attacks ∧
    st.failed_attacks ≤ (handle_request env r st).stats.failed_attacks ∧
    (handle_request env r st).stats.successful_ghost_attacks +
        (handle_request env r st).stats.failed_attacks ≤
      st.successful_ghost_attacks + st.failed_attacks + 1 := by
  obtain ⟨h1, h2, h3, h4⟩ :=
    dispatch_route_stats env r { st with total_requests := st.total_requests + 1 }
  unfold handle_request before_request
  cases hgate : env.check_api_status
  all_goals simp_all

/-- C8: every request (whatever its route, body or outcome) increments
`total_requests` by exactly 1 and moves each attack counter up by at
most 1 with at most one of the two growing, so along any sequence of
requests from process start the invariant
`successful_ghost_attacks + failed_attacks <= total_requests` holds. -/
theorem stats_counters_invariant (env : Env) (rs : List HttpRequest) (r : HttpRequest)
    (st : Stats) :
    ((handle_request env r st).stats.total_requests = st.total_requests + 1 ∧
     st.successful_ghost_attacks ≤ (handle_request env r st).stats.successful_ghost_attacks ∧
     st.failed_attacks ≤ (handle_request env r st).stats.failed_attacks ∧
     (handle_request env r st).stats.successful_ghost_attacks +
         (handle_request env r st).stats.failed_attacks ≤
       st.successful_ghost_attacks + st.failed_attacks + 1) ∧
    (run_requests env rs stats0).successful_ghost_attacks +
        (run_requests env rs stats0).failed_attacks ≤
      (run_requests env rs stats0).total_requests := by
  refine ⟨handle_request_stats_step env r st, ?_⟩
  have key : ∀ (l : List HttpRequest) (s : Stats),
      s.successful_ghost_attacks + s.failed_attacks ≤ s.total_requests →
      (run_requests env l s).successful_ghost_attacks +
          (run_requests env l s).failed_attacks ≤
        (run_requests env l s).total_requests := by
    intro l
    induction l with
    | nil => intro s hs; simpa [run_requests] using hs
    | cons r' rest ih =>
        intro s hs
        obtain ⟨h1, h2, h3, h4⟩ := handle_request_stats_step env r' s
        simp only [run_requests]
        exact ih _ (by omega)
  exact key rs stats0 (by simp [stats0])
